import Mathlib

/-!
Shallow embedding of the star-history crawler (src/crawler.rs, src/github.rs,
src/date.rs, src/main.rs).

Modelling conventions, justified by the crate contracts the code relies on:

* Calendar days are modelled as `Day := Int`, an absolute day number.
  The Rust code stores dates as canonical zero-padded `YYYY-MM-DD` strings
  produced by `date::format_ymd`; lexicographic order on those strings agrees
  with calendar order, `date::parse_ymd` round-trips them, and `time::Date`
  subtraction yields the exact day difference.  All three operations are
  therefore represented by `Int` order and subtraction on the day number.
* An ISO-8601 timestamp string (`Star.starred_at` in Rust) is modelled as a
  `Timestamp`: its calendar day together with a `valid` flag; `valid = false`
  models a string rejected by `date::parse_iso8601`.
* A `reqwest::Response` is modelled by the data the crawler reads from it:
  status code, the `link` header together with the outcome of the fixed
  regular-expression search that `get_page_count` runs on it (the regex
  crate is external, so its result on the header value is part of the input),
  the `x-ratelimit-reset` header (already converted to epoch seconds; `none`
  models an absent header), and the two possible JSON decodings of the body
  (`none` models a body that fails to decode).
* `anyhow::Error` values are modelled by the inductive `Err`, one constructor
  per distinct failure site.
* Network calls are modelled by `Except Err Response` values supplied as
  input (a scripted environment); `Except.error` models a transport failure.
-/

namespace StarsCrawler

/-- `STARGAZERS_PER_PAGE` from src/main.rs. -/
def STARGAZERS_PER_PAGE : Nat := 30

/-- Absolute calendar-day number (see the modelling conventions above). -/
abbrev Day := Int

/-- Model of an ISO-8601 timestamp string: its day, and whether
`date::parse_iso8601` accepts it. -/
structure Timestamp where
  day : Day
  valid : Bool
deriving DecidableEq

/-- `Star` from src/crawler.rs: one stargazer entry with its timestamp. -/
structure Star where
  starred_at : Timestamp
deriving DecidableEq

/-- `StarRecord` from src/crawler.rs.  In Rust `date` is the canonical
`YYYY-MM-DD` string; here it is the day number (order-isomorphic). -/
structure StarRecord where
  date : Day
  count : Nat
deriving DecidableEq

/-- Outcome of running the fixed pattern `next.*&page=(\d*).*last` of
`get_page_count` over the link header, as returned by the regex crate:
either no match, or a match together with capture group 1. -/
inductive RegexResult where
  | noMatch
  | captured (group1 : Option String)
deriving DecidableEq

/-- The distinct failure sites of the crawler (`anyhow::Error` values). -/
inductive Err where
  | transport
  | badStatus (code : Nat)
  | noLinkHeader
  | intParse
  | jsonDecode
  | dateParse
  | noStargazersCount
  | missingRateLimitHeader
deriving DecidableEq

/-- Model of a `reqwest::Response` restricted to the data the crawler reads. -/
structure Response where
  status : Nat
  linkHeader : Option (String × RegexResult)
  xRateLimitReset : Option Int
  bodyStars : Option (List Star)
  bodyStargazersCount : Option Nat
deriving DecidableEq

/-- `date::iso8601_to_ymd` from src/date.rs: parse an ISO-8601 timestamp and
format its calendar day (here: return the day number). -/
def iso8601_to_ymd (t : Timestamp) : Except Err Day :=
  if t.valid then .ok t.day else .error .dateParse

/-- Model of `str::parse::<usize>` on the text captured by `(\d*)`:
succeeds exactly on a non-empty all-digit string.  (The captured text can
only consist of digits, so the sign handling of `usize::from_str` never
applies; integer overflow is not modelled.) -/
def parseUsize (s : String) : Option Nat :=
  if s.data = [] then none
  else if s.data.all Char.isDigit then
    some (s.data.foldl (fun n c => n * 10 + (c.toNat - 48)) 0)
  else none

/-- `get_page_count` from src/crawler.rs: read the link header (absent ⇒
error), run the fixed regex; on no match keep `page_count = 1`, on a match
parse capture group 1 (parse failure ⇒ error). -/
def get_page_count (r : Response) : Except Err Nat :=
  match r.linkHeader with
  | none => .error .noLinkHeader
  | some (_, .noMatch) => .ok 1
  | some (_, .captured none) => .ok 1
  | some (_, .captured (some g)) =>
    match parseUsize g with
    | none => .error .intParse
    | some n => .ok n

/-- `get_request_pages` from src/crawler.rs.  Rust's `(1..page_count)` is
`List.range' 1 (page_count - 1)` and `(1..=max_requests_count)` is
`List.range' 1 max_requests_count`. -/
def get_request_pages (page_count max_requests_count : Nat) : List Nat :=
  if page_count < max_requests_count then
    List.range' 1 (page_count - 1)
  else
    let request_pages :=
      (List.range' 1 max_requests_count).map
        (fun i => i * page_count / max_requests_count - 1)
    if 1 ∈ request_pages then request_pages else 1 :: request_pages

/-- The retry loop of `Github::handle_rate_limit` (src/github.rs) after the
first `execute`.  `first` is the response just received; `script` lists the
responses the transport will yield to the successive re-issued requests
(an exhausted script stands for a transport failure on the next re-issue;
the real loop would keep re-issuing).  `now` is the clock reading, held
fixed across iterations, at second granularity.  On a 429 or 403 the code
reads the `x-ratelimit-reset` header (absent ⇒ error), computes
`wait = reset - now` as a signed duration and sleeps
`wait.unsigned_abs()`, i.e. the absolute value `(reset - now).natAbs`.
The returned list records the successive sleep durations in seconds. -/
def rateLimitRetry (now : Int) : Response → List Response →
    Except Err (Response × List Nat)
  | resp, script =>
    if resp.status = 429 ∨ resp.status = 403 then
      match resp.xRateLimitReset with
      | none => .error .missingRateLimitHeader
      | some reset =>
        let wait := (reset - now).natAbs
        match script with
        | [] => .error .transport
        | next :: rest =>
          match rateLimitRetry now next rest with
          | .error e => .error e
          | .ok (final, waits) => .ok (final, wait :: waits)
    else .ok (resp, [])

/-- `Github::handle_rate_limit` (src/github.rs): execute the request once
(the head of the script), then run the retry loop. -/
def handle_rate_limit (now : Int) : List Response →
    Except Err (Response × List Nat)
  | [] => .error .transport
  | r :: rest => rateLimitRetry now r rest

/-- The loop body of `Crawler::sample_star_responses` (src/crawler.rs),
over the zipped `(page index, fetch result)` pairs.  A fetch `Err` is
logged and skipped; an `Ok` response has its body decoded (failure ⇒
error via `?`), and if the page is non-empty its first entry becomes one
record with `count = STARGAZERS_PER_PAGE * index`. -/
def sampleLoop : List (Nat × Except Err Response) →
    Except Err (List StarRecord)
  | [] => .ok []
  | (_, .error _) :: rest => sampleLoop rest
  | (index, .ok resp) :: rest =>
    match resp.bodyStars with
    | none => .error .jsonDecode
    | some json =>
      match json.head? with
      | none => sampleLoop rest
      | some star =>
        match iso8601_to_ymd star.starred_at with
        | .error e => .error e
        | .ok d =>
          match sampleLoop rest with
          | .error e => .error e
          | .ok tail =>
            .ok (⟨d, STARGAZERS_PER_PAGE * index⟩ :: tail)

/-- `Crawler::sample_star_responses` (src/crawler.rs): zip the planned page
indices with the fetch results and run the loop. -/
def sample_star_responses (request_pages : List Nat)
    (responses : List (Except Err Response)) : Except Err (List StarRecord) :=
  sampleLoop (request_pages.zip responses)

/-- The collection phase of `Crawler::parse_all_star_responses`
(src/crawler.rs): concatenate every page's entries in page order; a fetch
`Err`, a non-200 status, or a body that fails to decode aborts with that
error. -/
def collectStars : List (Except Err Response) → Except Err (List Star)
  | [] => .ok []
  | .error e :: _ => .error e
  | .ok resp :: rest =>
    if resp.status ≠ 200 then .error (.badStatus resp.status)
    else
      match resp.bodyStars with
      | none => .error .jsonDecode
      | some json =>
        match collectStars rest with
        | .error e => .error e
        | .ok tail => .ok (json ++ tail)

/-- The stride walk of `Crawler::parse_all_star_responses` (src/crawler.rs):
`while index < stars.len()` emit a record with
`count = STARGAZERS_PER_PAGE * index`, then
`index += stars.len() / max_request_count`.  The Rust loop need not
terminate (the stride is 0 whenever `stars.len() < max_request_count`),
so it is embedded with explicit fuel: `none` means the fuel ran out. -/
def walkLoop (max_request_count : Nat) (stars : List Star) :
    Nat → Nat → List StarRecord → Option (Except Err (List StarRecord))
  | 0, index, acc =>
    if index < stars.length then none else some (.ok acc)
  | fuel + 1, index, acc =>
    if h : index < stars.length then
      match iso8601_to_ymd (stars.get ⟨index, h⟩).starred_at with
      | .error e => some (.error e)
      | .ok d =>
        walkLoop max_request_count stars fuel
          (index + stars.length / max_request_count)
          (acc ++ [⟨d, STARGAZERS_PER_PAGE * index⟩])
    else some (.ok acc)

/-- `Crawler::parse_all_star_responses` (src/crawler.rs): collect all
entries, then run the stride walk from index 0.  The fuel
`stars.length + 1` is sufficient whenever the stride is at least 1 (the
loop then runs at most `stars.length` iterations), so `none` is returned
exactly when the Rust loop diverges. -/
def parse_all_star_responses (max_request_count : Nat)
    (responses : List (Except Err Response)) :
    Option (Except Err (List StarRecord)) :=
  match collectStars responses with
  | .error e => some (.error e)
  | .ok stars => walkLoop max_request_count stars (stars.length + 1) 0 []

/-- The derived `Ord` of `StarRecord` (src/crawler.rs): lexicographic on
`(date, count)`.  (In Rust the `date` field is the canonical `YYYY-MM-DD`
string, whose lexicographic order agrees with the day-number order.) -/
def recLe (a b : StarRecord) : Prop :=
  a.date < b.date ∨ (a.date = b.date ∧ a.count ≤ b.count)

instance : DecidableRel recLe := fun a b =>
  decidable_of_iff
    (a.date < b.date ∨ (a.date = b.date ∧ a.count ≤ b.count)) Iff.rfl

instance : IsTotal StarRecord recLe where
  total a b := by
    unfold recLe
    rcases lt_trichotomy a.date b.date with h | h | h
    · exact Or.inl (Or.inl h)
    · rcases Nat.le_total a.count b.count with hc | hc
      · exact Or.inl (Or.inr ⟨h, hc⟩)
      · exact Or.inr (Or.inr ⟨h.symm, hc⟩)
    · exact Or.inr (Or.inl h)

instance : IsTrans StarRecord recLe where
  trans a b c hab hbc := by
    unfold recLe at *
    rcases hab with h1 | ⟨h1, h1c⟩ <;> rcases hbc with h2 | ⟨h2, h2c⟩
    · exact Or.inl (h1.trans h2)
    · exact Or.inl (h2 ▸ h1)
    · exact Or.inl (h1 ▸ h2)
    · exact Or.inr ⟨h1.trans h2, h1c.trans h2c⟩

/-- The scripted environment of one `Crawler::stars` run: the result of the
initial page fetch, the result of fetching each planned page, the result
of the aggregate-count fetch, the request budget and the current day.
Each `Except Err Response` models one `Github::stargazers` /
`Github::star_count` call (network plus rate-limit handling absorbed). -/
structure Env where
  firstResponse : Except Err Response
  fetchPage : Nat → Except Err Response
  starCountResponse : Except Err Response
  max_request_count : Nat
  now : Day

/-- `Crawler::star_count` (src/crawler.rs): fetch the repo object and read
its numeric `stargazers_count` field (missing or non-numeric ⇒ error;
the status code is not checked). -/
def star_count (e : Env) : Except Err Nat :=
  match e.starCountResponse with
  | .error err => .error err
  | .ok resp =>
    match resp.bodyStargazersCount with
    | none => .error .noStargazersCount
    | some n => .ok n

/-- The opening of `Crawler::stars` (src/crawler.rs): initial fetch, status
check, page count from the link header, body decode. -/
def fetchFirstPage (e : Env) : Except Err (Nat × List Star) :=
  match e.firstResponse with
  | .error err => .error err
  | .ok response =>
    if response.status ≠ 200 then .error (.badStatus response.status)
    else
      match get_page_count response with
      | .error err => .error err
      | .ok page_count =>
        match response.bodyStars with
        | none => .error .jsonDecode
        | some json => .ok (page_count, json)

/-- The middle of `Crawler::stars` (src/crawler.rs): plan the pages, fetch
them, reconstruct by the exhaustive walk when the plan is shorter than the
budget and by sparse sampling otherwise, then sort (Rust's stable sort and
insertion sort agree: `recLe` is a total order, so the sorted permutation
is unique).  `none` propagates divergence of the stride walk. -/
def crawlRecordsSorted (e : Env) (page_count : Nat) :
    Option (Except Err (List StarRecord)) :=
  let request_pages := get_request_pages page_count e.max_request_count
  let responses := request_pages.map e.fetchPage
  let parsed :=
    if request_pages.length < e.max_request_count then
      parse_all_star_responses e.max_request_count responses
    else some (sample_star_responses request_pages responses)
  match parsed with
  | none => none
  | some (.error err) => some (.error err)
  | some (.ok recs) => some (.ok (List.insertionSort recLe recs))

/-- The freshness test of `Crawler::stars` (src/crawler.rs): true when the
sorted series is empty, or its last record's date is more than 90 days
before `now` (`getLast? = none` is exactly Rust's `is_empty()`). -/
def add_current_stars (now : Day) (sorted : List StarRecord) : Bool :=
  match sorted.getLast? with
  | none => true
  | some last => decide (90 < now - last.date)

/-- `Crawler::stars` (src/crawler.rs): initial fetch, the
no-stargazers short-circuit, reconstruction and sort, then the freshness
check: append one record dated `now` with the current aggregate count when
the series is empty or its last date is more than 90 days old.  (Re-parsing
the stored date string always succeeds: the string is the canonical format,
see the modelling conventions.) -/
def stars (e : Env) : Option (Except Err (List StarRecord)) :=
  match fetchFirstPage e with
  | .error err => some (.error err)
  | .ok (page_count, json) =>
    if page_count = 1 ∧ json.isEmpty then some (.ok [])
    else
      match crawlRecordsSorted e page_count with
      | none => none
      | some (.error err) => some (.error err)
      | some (.ok sorted) =>
        if add_current_stars e.now sorted then
          match star_count e with
          | .error err => some (.error err)
          | .ok count => some (.ok (sorted ++ [⟨e.now, count⟩]))
        else some (.ok sorted)

/-! ## Theorems about the page planner -/

/-- C1, counterexample: the claim demands a non-empty plan containing page 1
for every `pageCount ≥ 1` and positive budget, but
`get_request_pages 1 10` is the empty list (the small branch returns
`1 .. pageCount - 1`, which is empty for a one-page collection), so it
neither is non-empty nor contains 1. -/
theorem get_request_pages_one_page_counterexample :
    get_request_pages 1 10 = [] ∧ ¬ (1 ∈ get_request_pages 1 10) := by
  decide

/-- C1, amended: the plan is non-empty and contains page index 1 whenever
`pageCount ≥ 2`, or `maxRequests ≤ pageCount` (the sampling branch); the
single failing case is `pageCount = 1 < maxRequests`, where the plan is
empty. -/
theorem get_request_pages_nonempty_mem_one
    (page_count max_requests_count : Nat)
    (hpc : 2 ≤ page_count ∨ max_requests_count ≤ page_count) :
    get_request_pages page_count max_requests_count ≠ [] ∧
    1 ∈ get_request_pages page_count max_requests_count := by
  unfold get_request_pages
  by_cases h : page_count < max_requests_count
  · simp only [h, if_true]
    have h2 : 2 ≤ page_count := by
      rcases hpc with h2 | h2
      · exact h2
      · omega
    have h1 : 1 ∈ List.range' 1 (page_count - 1) := by
      rw [List.mem_range'_1]
      omega
    exact ⟨List.ne_nil_of_mem h1, h1⟩
  · simp only [h, if_false]
    by_cases hmem :
        1 ∈ (List.range' 1 max_requests_count).map
          (fun i => i * page_count / max_requests_count - 1)
    · rw [if_pos hmem]
      exact ⟨List.ne_nil_of_mem hmem, hmem⟩
    · rw [if_neg hmem]
      exact ⟨List.cons_ne_nil _ _, List.mem_cons_self _ _⟩

/-- C1, witness for the amended theorem at `pageCount = 5`,
`maxRequests = 10`. -/
theorem get_request_pages_nonempty_mem_one_witness :
    get_request_pages 5 10 ≠ [] ∧ 1 ∈ get_request_pages 5 10 :=
  get_request_pages_nonempty_mem_one 5 10 (Or.inl (by decide))

/-- C5, counterexample: `get_request_pages 100 10` has 11 elements, not 10:
the formula values `10*i - 1` for `i = 1..10` do not contain 1, so 1 is
inserted at the front. -/
theorem get_request_pages_100_10_counterexample :
    get_request_pages 100 10 = [1, 9, 19, 29, 39, 49, 59, 69, 79, 89, 99] ∧
    (get_request_pages 100 10).length ≠ 10 := by
  decide

/-- C5, amended: `get_request_pages 100 10` returns 11 indices — page 1
inserted at the front, followed by `i * 100 / 10 - 1` for `i = 1..10` —
strictly increasing and starting at 1. -/
theorem get_request_pages_100_10_amended :
    get_request_pages 100 10 =
      1 :: (List.range' 1 10).map (fun i => i * 100 / 10 - 1) ∧
    List.Pairwise (· < ·) (get_request_pages 100 10) ∧
    (get_request_pages 100 10).head? = some 1 := by
  decide

/-- C8, counterexample: the claim demands every planned index be at least 1,
but `get_request_pages 10 10` contains 0 (the formula gives
`1 * 10 / 10 - 1 = 0` for `i = 1`). -/
theorem get_request_pages_zero_counterexample :
    (0 : Nat) ∈ get_request_pages 10 10 ∧
    ¬ (∀ x ∈ get_request_pages 10 10, 1 ≤ x) := by
  decide

/-- C8, amended: the planned indices are pairwise distinct for every input,
and every index is at least 1 except that index 0 appears (from the
sampling formula at `i = 1`) exactly in the regime
`maxRequests ≤ pageCount < 2 * maxRequests`. -/
theorem get_request_pages_nodup_and_zero
    (page_count max_requests_count : Nat) :
    (get_request_pages page_count max_requests_count).Nodup ∧
    ∀ x ∈ get_request_pages page_count max_requests_count, x = 0 →
      max_requests_count ≤ page_count ∧
      page_count < 2 * max_requests_count := by
  unfold get_request_pages
  by_cases h : page_count < max_requests_count
  · simp only [h, if_true]
    refine ⟨List.nodup_range' _ _, ?_⟩
    intro x hx hx0
    rw [List.mem_range'_1] at hx
    omega
  · simp only [h, if_false]
    have hmr : max_requests_count ≤ page_count := Nat.le_of_not_lt h
    have hmono : ∀ i j : Nat, 1 ≤ i → i < j → j ≤ max_requests_count →
        i * page_count / max_requests_count - 1 <
        j * page_count / max_requests_count - 1 := by
      intro i j hi hij hj
      have hm0 : 0 < max_requests_count := by omega
      have hqi : i ≤ i * page_count / max_requests_count :=
        (Nat.le_div_iff_mul_le hm0).mpr
          (Nat.mul_le_mul_left i hmr)
      have hstep : i * page_count / max_requests_count + 1 ≤
          j * page_count / max_requests_count := by
        have hle : i * page_count + max_requests_count ≤ j * page_count := by
          have : (i + 1) * page_count ≤ j * page_count :=
            Nat.mul_le_mul_right page_count (by omega)
          have hpc1 : max_requests_count ≤ page_count := hmr
          nlinarith
        calc i * page_count / max_requests_count + 1
            = (i * page_count + max_requests_count) / max_requests_count := by
              rw [Nat.add_div_right _ hm0]
          _ ≤ j * page_count / max_requests_count :=
              Nat.div_le_div_right hle
      omega
    have hbound : ∀ x ∈ (List.range' 1 max_requests_count).map
          (fun i => i * page_count / max_requests_count - 1),
        x = 0 → max_requests_count ≤ page_count ∧
          page_count < 2 * max_requests_count := by
      intro x hx hx0
      rw [List.mem_map] at hx
      obtain ⟨i, hi, hfi⟩ := hx
      rw [List.mem_range'_1] at hi
      have hm0 : 0 < max_requests_count := by omega
      have hqi : i ≤ i * page_count / max_requests_count :=
        (Nat.le_div_iff_mul_le hm0).mpr
          (Nat.mul_le_mul_left i hmr)
      have hq1 : i * page_count / max_requests_count = 1 := by omega
      have hpcle : page_count / max_requests_count ≤
          i * page_count / max_requests_count :=
        Nat.div_le_div_right (Nat.le_mul_of_pos_left page_count (by omega))
      have hlt2 : page_count / max_requests_count < 2 := by omega
      exact ⟨hmr, (Nat.div_lt_iff_lt_mul hm0).mp hlt2⟩
    have hnodupL : ((List.range' 1 max_requests_count).map
        (fun i => i * page_count / max_requests_count - 1)).Nodup := by
      refine List.Nodup.map_on ?_ (List.nodup_range' _ _)
      intro x hx y hy hxy
      rw [List.mem_range'_1] at hx hy
      by_contra hne
      rcases Nat.lt_or_ge x y with hlt | hge
      · exact absurd hxy (Nat.ne_of_lt (hmono x y (by omega) hlt (by omega)))
      · have hgt : y < x := by omega
        exact absurd hxy.symm
          (Nat.ne_of_lt (hmono y x (by omega) hgt (by omega)))
    by_cases hmem :
        1 ∈ (List.range' 1 max_requests_count).map
          (fun i => i * page_count / max_requests_count - 1)
    · simp only [hmem, if_true]
      exact ⟨hnodupL, hbound⟩
    · simp only [hmem, if_false]
      refine ⟨List.nodup_cons.mpr ⟨hmem, hnodupL⟩, ?_⟩
      intro x hx hx0
      rcases List.mem_cons.mp hx with h1 | h2
      · omega
      · exact hbound x h2 hx0

/-- C8, witness for the amended theorem: `get_request_pages 10 10` is
duplicate-free, and its element 0 certifies `10 ≤ 10 < 2 * 10`. -/
theorem get_request_pages_nodup_and_zero_witness :
    (get_request_pages 10 10).Nodup ∧ (10 ≤ 10 ∧ 10 < 2 * 10) :=
  ⟨(get_request_pages_nodup_and_zero 10 10).1,
    (get_request_pages_nodup_and_zero 10 10).2 0 (by decide) rfl⟩

/-! ## Theorems about `get_page_count` (C9) -/

/-- C9: `get_page_count` fails exactly when the link header is entirely
absent or the captured page number fails to parse (e.g. the empty capture
of `(\d*)`); a present header that does not match the pattern — or a match
without capture group 1 — silently yields page count 1, indistinguishable
from a one-page collection. -/
theorem get_page_count_characterisation (r : Response) :
    (r.linkHeader = none → get_page_count r = .error .noLinkHeader) ∧
    (∀ s, r.linkHeader = some (s, RegexResult.noMatch) →
      get_page_count r = .ok 1) ∧
    (∀ s, r.linkHeader = some (s, RegexResult.captured none) →
      get_page_count r = .ok 1) ∧
    (∀ s g, r.linkHeader = some (s, RegexResult.captured (some g)) →
      parseUsize g = none → get_page_count r = .error .intParse) ∧
    (∀ s g n, r.linkHeader = some (s, RegexResult.captured (some g)) →
      parseUsize g = some n → get_page_count r = .ok n) := by
  refine ⟨?_, ?_, ?_, ?_, ?_⟩
  · intro h; unfold get_page_count; rw [h]
  · intro s h; unfold get_page_count; rw [h]
  · intro s h; unfold get_page_count; rw [h]
  · intro s g h hp; unfold get_page_count; rw [h]
    show (match parseUsize g with
      | none => Except.error Err.intParse
      | some n => Except.ok n) = Except.error Err.intParse
    rw [hp]
  · intro s g n h hp; unfold get_page_count; rw [h]
    show (match parseUsize g with
      | none => Except.error Err.intParse
      | some n => Except.ok n) = Except.ok n
    rw [hp]

/-- A response with no link header at all. -/
def c9RespNoHeader : Response := ⟨200, none, none, none, none⟩

/-- A response whose link header does not match the pattern. -/
def c9RespNoMatch : Response :=
  ⟨200, some ("malformed header", RegexResult.noMatch), none, none, none⟩

/-- A response whose capture group is the empty digit string. -/
def c9RespEmptyCapture : Response :=
  ⟨200, some ("h", RegexResult.captured (some "")), none, none, none⟩

/-- A response whose capture group parses as 7. -/
def c9RespPage7 : Response :=
  ⟨200, some ("h", RegexResult.captured (some "7")), none, none, none⟩

/-- C9, witness: the characterisation applied to four concrete headers. -/
theorem get_page_count_characterisation_witness :
    get_page_count c9RespNoHeader = .error .noLinkHeader ∧
    get_page_count c9RespNoMatch = .ok 1 ∧
    get_page_count c9RespEmptyCapture = .error .intParse ∧
    get_page_count c9RespPage7 = .ok 7 :=
  ⟨(get_page_count_characterisation c9RespNoHeader).1 rfl,
   (get_page_count_characterisation c9RespNoMatch).2.1
     "malformed header" rfl,
   (get_page_count_characterisation c9RespEmptyCapture).2.2.2.1
     "h" "" rfl (by decide),
   (get_page_count_characterisation c9RespPage7).2.2.2.2
     "h" "7" 7 rfl (by decide)⟩

/-! ## Theorems about `handle_rate_limit` (C3) -/

/-- A 429 response whose reset header (epoch 900) is strictly in the past
of `now = 1000`. -/
def resp429Past : Response := ⟨429, none, some 900, none, none⟩

/-- A 403 response whose reset header (epoch 950) is strictly in the past
of `now = 1000`. -/
def resp403Past : Response := ⟨403, none, some 950, none, none⟩

/-- The terminating 200 response. -/
def resp200Final : Response := ⟨200, none, none, none, none⟩

/-- C3, counterexample: with `now = 1000` and a 429 whose reset header is
900 (strictly in the past), the fetcher sleeps 100 seconds — the recorded
wait is `(reset - now).unsigned_abs = 100`, not
`max (reset - now) 0 = 0` as the claim states. -/
theorem handle_rate_limit_past_reset_counterexample :
    handle_rate_limit 1000 [resp429Past, resp200Final] =
      .ok (resp200Final, [100]) ∧
    ((100 : Nat) ≠ (max ((900 : Int) - 1000) 0).toNat) := by
  exact ⟨rfl, by decide⟩

/-- Helper for the amended C3: running the retry loop with a current
rate-limited response, a script of further rate-limited responses (all
carrying a reset header) and a final non-limited response returns the
final response and records one wait of `(reset - now).natAbs` seconds per
limited response. -/
theorem rateLimitRetry_run (now : Int) (final : Response)
    (hfin : ¬(final.status = 429 ∨ final.status = 403)) :
    ∀ (limited : List Response),
      (∀ r ∈ limited, (r.status = 429 ∨ r.status = 403) ∧
        ∃ t, r.xRateLimitReset = some t) →
      ∀ (first : Response) (t : Int),
        (first.status = 429 ∨ first.status = 403) →
        first.xRateLimitReset = some t →
        rateLimitRetry now first (limited ++ [final]) =
          .ok (final, (t - now).natAbs ::
            limited.map (fun r => ((r.xRateLimitReset.getD 0) - now).natAbs)) := by
  intro limited
  induction limited with
  | nil =>
    intro _ first t hf ht
    have hbase : rateLimitRetry now final [] = .ok (final, []) := by
      unfold rateLimitRetry
      rw [if_neg hfin]
    show rateLimitRetry now first ([] ++ [final]) = _
    rw [List.nil_append]
    unfold rateLimitRetry
    rw [if_pos hf, ht]
    show (match rateLimitRetry now final [] with
      | .error e => Except.error e
      | .ok (f, waits) => .ok (f, (t - now).natAbs :: waits)) = _
    rw [hbase]
    rfl
  | cons r rest ih =>
    intro hlim first t hf ht
    obtain ⟨hr, t', ht'⟩ := hlim r (List.mem_cons_self _ _)
    have hrest : ∀ x ∈ rest, (x.status = 429 ∨ x.status = 403) ∧
        ∃ u, x.xRateLimitReset = some u :=
      fun x hx => hlim x (List.mem_cons_of_mem _ hx)
    show rateLimitRetry now first ((r :: rest) ++ [final]) = _
    rw [List.cons_append]
    unfold rateLimitRetry
    rw [if_pos hf, ht]
    show (match rateLimitRetry now r (rest ++ [final]) with
      | .error e => Except.error e
      | .ok (f, waits) => .ok (f, (t - now).natAbs :: waits)) = _
    rw [ih hrest r t' hr ht']
    simp only [List.map_cons, ht', Option.getD_some]

/-- C3, amended: the fetcher sleeps `(reset - now).unsigned_abs` — the
absolute value, not the claim's `max (reset - now) 0` — so for a reset
strictly in the past it sleeps the positive duration `now - reset`; a run
of 429/403 responses carrying reset headers followed by a 200 still
yields the 200 without error, with one such recorded wait per
rate-limited response. -/
theorem handle_rate_limit_absolute_wait (now : Int)
    (limited : List Response) (final : Response)
    (hlim : ∀ r ∈ limited, (r.status = 429 ∨ r.status = 403) ∧
      ∃ t, r.xRateLimitReset = some t)
    (hfin : ¬(final.status = 429 ∨ final.status = 403)) :
    handle_rate_limit now (limited ++ [final]) =
      .ok (final,
        limited.map (fun r => ((r.xRateLimitReset.getD 0) - now).natAbs)) := by
  cases limited with
  | nil =>
    show handle_rate_limit now [final] = _
    unfold handle_rate_limit rateLimitRetry
    rw [if_neg hfin]
    rfl
  | cons r rest =>
    obtain ⟨hr, t, ht⟩ := hlim r (List.mem_cons_self _ _)
    have hrest : ∀ x ∈ rest, (x.status = 429 ∨ x.status = 403) ∧
        ∃ u, x.xRateLimitReset = some u :=
      fun x hx => hlim x (List.mem_cons_of_mem _ hx)
    show rateLimitRetry now r (rest ++ [final]) = _
    rw [rateLimitRetry_run now final hfin rest hrest r t hr ht]
    simp only [List.map_cons, ht, Option.getD_some]

/-- C3, witness for the amended theorem: two past-reset rate-limited
responses (waits 100 and 50 seconds, both positive) followed by a 200. -/
theorem handle_rate_limit_absolute_wait_witness :
    handle_rate_limit 1000 [resp429Past, resp403Past, resp200Final] =
      .ok (resp200Final, [100, 50]) := by
  have h := handle_rate_limit_absolute_wait 1000 [resp429Past, resp403Past]
    resp200Final ?hlim ?hfin
  · exact h
  case hlim =>
    intro r hr
    rcases List.mem_cons.mp hr with rfl | hr'
    · exact ⟨Or.inl rfl, 900, rfl⟩
    · rcases List.mem_cons.mp hr' with rfl | hr''
      · exact ⟨Or.inr rfl, 950, rfl⟩
      · cases hr''
  case hfin => decide

/-! ## The stride-walk divergence (C2) -/

/-- A single parseable stargazer entry. -/
def c2Star : Star := ⟨⟨0, true⟩⟩

/-- A 200 response whose body holds exactly one entry. -/
def c2Response : Response := ⟨200, none, none, some [c2Star], none⟩

/-- C2, code bug: with one collected entry and `max_request_count = 10`
the stride is `1 / 10 = 0`, so the walk of `parse_all_star_responses`
never advances past index 0 and never terminates (it keeps re-emitting
the index-0 record): the loop returns `none` for every fuel, where the
claim (and the spec) require every entry to be emitted once and the walk
to terminate. -/
theorem parse_all_stride_zero_diverges :
    (∀ (fuel : Nat) (acc : List StarRecord),
      walkLoop 10 [c2Star] fuel 0 acc = none) ∧
    parse_all_star_responses 10 [Except.ok c2Response] = none := by
  have hloop : ∀ (fuel : Nat) (acc : List StarRecord),
      walkLoop 10 [c2Star] fuel 0 acc = none := by
    intro fuel
    induction fuel with
    | zero => intro acc; rfl
    | succ n ih => intro acc; exact ih (acc ++ [⟨(0 : Int), 0⟩])
  exact ⟨hloop, hloop 2 []⟩

/-! ## Failure policies of the two strategies (C6, C10) -/

/-- The first transport-level fetch failure in a list of fetch results. -/
def firstFetchError : List (Except Err Response) → Option Err
  | [] => none
  | .error e :: _ => some e
  | .ok _ :: rest => firstFetchError rest

/-- Whether a fetch result is a transport-level failure. -/
def isFetchError : Except Err Response → Bool
  | .error _ => true
  | .ok _ => false

/-- If every successful response is well-formed (status 200, decodable
body), the collection phase of the exhaustive strategy aborts with the
first fetch failure. -/
theorem collectStars_firstError :
    ∀ (responses : List (Except Err Response)),
      (∀ resp, Except.ok resp ∈ responses →
        resp.status = 200 ∧ resp.bodyStars ≠ none) →
      ∀ e, firstFetchError responses = some e →
        collectStars responses = .error e := by
  intro responses
  induction responses with
  | nil => intro _ e he; cases he
  | cons r rest ih =>
    intro hwf e he
    cases r with
    | error e' =>
      have : some e' = some e := he
      cases this
      rfl
    | ok resp =>
      obtain ⟨hs, hb⟩ := hwf resp (List.mem_cons_self _ _)
      have hrest := fun x hx => hwf x (List.mem_cons_of_mem _ hx)
      have he' : firstFetchError rest = some e := he
      show collectStars (Except.ok resp :: rest) = .error e
      unfold collectStars
      rw [if_neg (show ¬(resp.status ≠ 200) from fun hc => hc hs)]
      obtain ⟨json, hjson⟩ : ∃ j, resp.bodyStars = some j := by
        cases hbs : resp.bodyStars with
        | none => exact absurd hbs hb
        | some j => exact ⟨j, rfl⟩
      rw [hjson]
      show (match collectStars rest with
        | .error e => Except.error e
        | .ok tail => .ok (json ++ tail)) = .error e
      rw [ih hrest e he']

/-- If every successful response decodes to a non-empty page with a
parseable first timestamp, the sampling loop never aborts and emits one
record per successful page: the output is one record shorter per failed
fetch. -/
theorem sampleLoop_ok :
    ∀ (responses : List (Except Err Response)) (pages : List Nat),
      (∀ resp, Except.ok resp ∈ responses →
        ∃ s l, resp.bodyStars = some (s :: l) ∧ s.starred_at.valid = true) →
      pages.length = responses.length →
      ∃ recs, sampleLoop (pages.zip responses) = .ok recs ∧
        recs.length = responses.length - responses.countP isFetchError := by
  intro responses
  induction responses with
  | nil =>
    intro pages _ hlen
    have : pages = [] := List.length_eq_zero.mp hlen
    subst this
    exact ⟨[], rfl, rfl⟩
  | cons r rest ih =>
    intro pages hwf hlen
    cases pages with
    | nil => cases hlen
    | cons p ps =>
      have hlen' : ps.length = rest.length := by
        simpa using hlen
      have hwfrest := fun resp h => hwf resp (List.mem_cons_of_mem _ h)
      obtain ⟨recs, hrecs, hcount⟩ := ih ps hwfrest hlen'
      have hcle : rest.countP isFetchError ≤ rest.length :=
        List.countP_le_length _
      cases r with
      | error e =>
        refine ⟨recs, ?_, ?_⟩
        · show sampleLoop ((p, Except.error e) :: ps.zip rest) = .ok recs
          exact hrecs
        · rw [List.countP_cons_of_pos _ _ (by rfl)]
          simp only [List.length_cons]
          omega
      | ok resp =>
        obtain ⟨s, l, hb, hv⟩ := hwf resp (List.mem_cons_self _ _)
        refine ⟨⟨s.starred_at.day, STARGAZERS_PER_PAGE * p⟩ :: recs, ?_, ?_⟩
        · show sampleLoop ((p, Except.ok resp) :: ps.zip rest) = _
          unfold sampleLoop
          rw [hb]
          show (match iso8601_to_ymd s.starred_at with
            | .error e => Except.error e
            | .ok d =>
              match sampleLoop (ps.zip rest) with
              | .error e => Except.error e
              | .ok tail =>
                .ok ((⟨d, STARGAZERS_PER_PAGE * p⟩ : StarRecord) :: tail))
            = _
          unfold iso8601_to_ymd
          rw [if_pos hv, hrecs]
        · rw [List.countP_cons_of_neg _ _ (by simp [isFetchError])]
          simp only [List.length_cons]
          omega

/-- C6: the two strategies treat a failed page fetch asymmetrically.  When
every successful response is well formed (status 200, non-empty decodable
body, parseable first timestamp): the exhaustive strategy aborts the
whole run with the first fetch failure, whereas the sparse strategy never
aborts on fetch failures and returns exactly one record per successful
page — one fewer per failed page. -/
theorem failure_policy_asymmetry (max_request_count : Nat)
    (pages : List Nat) (responses : List (Except Err Response))
    (hwf : ∀ resp, Except.ok resp ∈ responses →
      resp.status = 200 ∧
      ∃ s l, resp.bodyStars = some (s :: l) ∧ s.starred_at.valid = true)
    (hlen : pages.length = responses.length) :
    (∀ e, firstFetchError responses = some e →
      parse_all_star_responses max_request_count responses =
        some (.error e)) ∧
    (∃ recs, sample_star_responses pages responses = .ok recs ∧
      recs.length = responses.length - responses.countP isFetchError) := by
  constructor
  · intro e he
    have hc := collectStars_firstError responses
      (fun resp h => ⟨(hwf resp h).1, by
        obtain ⟨s, l, hb, _⟩ := (hwf resp h).2
        simp [hb]⟩) e he
    unfold parse_all_star_responses
    rw [hc]
  · exact sampleLoop_ok responses pages
      (fun resp h => (hwf resp h).2) hlen

/-- One well-formed one-entry page used by the C6 witness. -/
def c6Resp : Response := ⟨200, none, none, some [⟨⟨5, true⟩⟩], none⟩

/-- A plan of two pages whose first fetch failed. -/
def c6Responses : List (Except Err Response) :=
  [Except.error Err.transport, Except.ok c6Resp]

/-- C6, witness: with one failed and one successful page, the exhaustive
strategy aborts with the failure while sparse sampling returns one record
(one fewer than the two planned pages). -/
theorem failure_policy_asymmetry_witness :
    parse_all_star_responses 4 c6Responses = some (.error .transport) ∧
    ∃ recs, sample_star_responses [1, 2] c6Responses = .ok recs ∧
      recs.length = c6Responses.length - c6Responses.countP isFetchError := by
  have h := failure_policy_asymmetry 4 [1, 2] c6Responses ?hwf (by decide)
  · exact ⟨h.1 Err.transport rfl, h.2⟩
  case hwf =>
    intro resp hmem
    simp only [c6Responses, List.mem_cons, List.not_mem_nil, or_false] at hmem
    rcases hmem with h1 | h2
    · cases h1
    · cases h2
      exact ⟨rfl, ⟨⟨5, true⟩⟩, [], rfl, rfl⟩

/-- C10: in sparse sampling the never-abort policy covers only
transport-level fetch failures: a successful fetch whose body fails to
decode as a list of entries, or whose first entry's timestamp fails to
parse, propagates an error that aborts the entire run. -/
theorem sample_decode_failure_aborts (index : Nat) (resp : Response)
    (restPages : List Nat) (restResponses : List (Except Err Response)) :
    (resp.bodyStars = none →
      sample_star_responses (index :: restPages)
        (Except.ok resp :: restResponses) = .error .jsonDecode) ∧
    (∀ s l, resp.bodyStars = some (s :: l) → s.starred_at.valid = false →
      sample_star_responses (index :: restPages)
        (Except.ok resp :: restResponses) = .error .dateParse) := by
  constructor
  · intro hb
    show sampleLoop ((index, Except.ok resp) :: restPages.zip restResponses)
      = _
    unfold sampleLoop
    rw [hb]
  · intro s l hb hv
    show sampleLoop ((index, Except.ok resp) :: restPages.zip restResponses)
      = _
    unfold sampleLoop
    rw [hb]
    show (match iso8601_to_ymd s.starred_at with
      | .error e => Except.error e
      | .ok d =>
        match sampleLoop (restPages.zip restResponses) with
        | .error e => Except.error e
        | .ok tail =>
          .ok ((⟨d, STARGAZERS_PER_PAGE * index⟩ : StarRecord) :: tail))
      = _
    unfold iso8601_to_ymd
    rw [if_neg (by simp [hv])]

/-- A successful fetch whose body is not a JSON array of entries. -/
def c10RespBadJson : Response := ⟨200, none, none, none, none⟩

/-- A successful fetch whose first entry has an unparseable timestamp. -/
def c10RespBadDate : Response :=
  ⟨200, none, none, some [⟨⟨3, false⟩⟩], none⟩

/-- C10, witness: a one-page plan aborts on a decode failure and on a
timestamp-parse failure. -/
theorem sample_decode_failure_aborts_witness :
    sample_star_responses [5] [Except.ok c10RespBadJson] =
      .error .jsonDecode ∧
    sample_star_responses [5] [Except.ok c10RespBadDate] =
      .error .dateParse :=
  ⟨(sample_decode_failure_aborts 5 c10RespBadJson [] []).1 rfl,
   (sample_decode_failure_aborts 5 c10RespBadDate [] []).2
     ⟨⟨3, false⟩⟩ [] rfl rfl⟩

/-! ## Sortedness and freshness of `stars` output (C4, C7) -/

theorem recLe_refl (a : StarRecord) : recLe a a := Or.inr ⟨rfl, le_refl _⟩

/-- In a sorted record list, every element is `recLe` the last element. -/
theorem sorted_rel_getLast :
    ∀ (l : List StarRecord) (a : StarRecord), l.Sorted recLe →
      l.getLast? = some a → ∀ x ∈ l, recLe x a := by
  intro l
  induction l with
  | nil => intro a _ ha x hx; cases hx
  | cons b t ih =>
    intro a hs ha x hx
    cases t with
    | nil =>
      have hba : b = a := by simpa using ha
      subst hba
      have hxb : x = b := by simpa using hx
      subst hxb
      exact recLe_refl _
    | cons c t' =>
      have ha' : (c :: t').getLast? = some a := by
        simpa [List.getLast?_cons_cons] using ha
      have hs' : (c :: t').Sorted recLe := hs.of_cons
      rcases List.mem_cons.mp hx with rfl | hx'
      · exact (List.rel_of_sorted_cons hs) a
          (List.mem_of_getLast?_eq_some ha')
      · exact ih a hs' ha' x hx'

/-- The final stage of `crawlRecordsSorted` only emits images of
`List.insertionSort recLe`, which are sorted. -/
theorem sortStage_sorted (parsed : Option (Except Err (List StarRecord)))
    (l : List StarRecord)
    (h : (match parsed with
      | none => none
      | some (Except.error err) => some (Except.error err)
      | some (Except.ok recs) =>
        some (Except.ok (List.insertionSort recLe recs))) =
      some (Except.ok l)) :
    l.Sorted recLe := by
  cases parsed with
  | none => simp at h
  | some res =>
    cases res with
    | error err => simp at h
    | ok recs =>
      have hl : List.insertionSort recLe recs = l := by simpa using h
      rw [← hl]
      exact List.sorted_insertionSort recLe recs

/-- Whatever the crawl produced, the pre-freshness series is sorted: it is
the image of `List.insertionSort recLe`. -/
theorem crawlRecordsSorted_sorted (e : Env) (page_count : Nat)
    (l : List StarRecord)
    (h : crawlRecordsSorted e page_count = some (.ok l)) :
    l.Sorted recLe :=
  sortStage_sorted _ l h

/-- C4, amended: every successful `stars` run returns a sequence sorted
ascending by `(date, count)` — in particular `count` is non-decreasing
among records of equal date, and the freshness-appended record (dated
strictly later than every other record) preserves the order.  (The
original claim additionally asserted `count` non-decreasing across
strictly increasing dates, which the code does not guarantee.) -/
theorem stars_sorted (e : Env) (out : List StarRecord)
    (h : stars e = some (Except.ok out)) : out.Sorted recLe := by
  unfold stars at h
  split at h
  · simp at h
  next pc json heq =>
    split at h
    · have hout : ([] : List StarRecord) = out := by simpa using h
      rw [← hout]
      exact List.sorted_nil
    · split at h
      · cases h
      · simp at h
      next sorted hcrawl =>
        have hsorted : sorted.Sorted recLe :=
          crawlRecordsSorted_sorted e pc sorted hcrawl
        split at h
        next hadd =>
          split at h
          · simp at h
          next count hcount =>
            have hout : sorted ++ [⟨e.now, count⟩] = out := by
              simpa using h
            rw [← hout]
            cases hl : sorted.getLast? with
            | none =>
              have hnil : sorted = [] := List.getLast?_eq_none_iff.mp hl
              subst hnil
              exact List.sorted_singleton _
            | some last =>
              have hlt : 90 < e.now - last.date := by
                unfold add_current_stars at hadd
                rw [hl] at hadd
                exact of_decide_eq_true hadd
              refine List.pairwise_append.mpr
                ⟨hsorted, List.pairwise_singleton _ _, ?_⟩
              intro x hx y hy
              have hy' : y = ⟨e.now, count⟩ := by simpa using hy
              subst hy'
              have hxlast : recLe x last :=
                sorted_rel_getLast sorted last hsorted hl x hx
              have hlastf : recLe last ⟨e.now, count⟩ :=
                Or.inl (show last.date < e.now by linarith)
              exact IsTrans.trans x last _ hxlast hlastf
        next hadd =>
          have hout : sorted = out := by simpa using h
          rw [← hout]
          exact hsorted

/-- First page of the C4 counterexample run: 200, link header capturing
page count 2, non-empty body. -/
def c4FirstResponse : Response :=
  ⟨200, some ("h", RegexResult.captured (some "2")), none,
    some [⟨⟨0, true⟩⟩], none⟩

/-- Planned page 0 of the C4 counterexample: its first entry is dated day
2000 (late). -/
def c4Page0 : Response := ⟨200, none, none, some [⟨⟨2000, true⟩⟩], none⟩

/-- Planned page 1 of the C4 counterexample: its first entry is dated day
0 (early). -/
def c4Page1 : Response := ⟨200, none, none, some [⟨⟨0, true⟩⟩], none⟩

/-- The C4 counterexample environment: budget 2, page count 2, so the
sparse strategy samples pages 0 and 1, and the pages' first entries are
dated in reverse of their page order. -/
def c4Env : Env :=
  { firstResponse := .ok c4FirstResponse
    fetchPage := fun p => if p = 0 then .ok c4Page0 else .ok c4Page1
    starCountResponse := .error .transport
    max_request_count := 2
    now := 2050 }

/-- C4, counterexample: a successful sparse run whose output is sorted but
whose `count` strictly decreases while `date` strictly increases (page 0
contributes `count = 0` with the later date, page 1 contributes
`count = 30` with the earlier date), refuting the claim that `count` is
non-decreasing as `date` increases. -/
theorem stars_count_decreasing_counterexample :
    stars c4Env = some (.ok [⟨0, 30⟩, ⟨2000, 0⟩]) ∧
    (0 : Day) < 2000 ∧ ¬((30 : Nat) ≤ 0) :=
  ⟨rfl, by decide, by decide⟩

/-- C4, witness for the amended theorem, applied to the concrete run of
`c4Env`. -/
theorem stars_sorted_witness :
    List.Sorted recLe [⟨0, 30⟩, ⟨2000, 0⟩] :=
  stars_sorted c4Env [⟨0, 30⟩, ⟨2000, 0⟩] rfl

/-- C7: on the non-short-circuited path, the current-total record dated
`now` is appended exactly when the sorted series is empty or its last
record is strictly more than 90 days old (`90 < now - last.date`): a last
date 91 days old triggers the append, while 90 or 89 days old does not
(see the witness). -/
theorem stars_freshness (e : Env) (page_count : Nat) (json : List Star)
    (recs : List StarRecord) (count : Nat)
    (h1 : fetchFirstPage e = .ok (page_count, json))
    (h2 : ¬(page_count = 1 ∧ json.isEmpty = true))
    (h3 : crawlRecordsSorted e page_count = some (.ok recs))
    (h4 : star_count e = .ok count) :
    ((recs = [] ∨ ∃ last, recs.getLast? = some last ∧
        90 < e.now - last.date) →
      stars e = some (.ok (recs ++ [⟨e.now, count⟩]))) ∧
    ((∃ last, recs.getLast? = some last ∧ e.now - last.date ≤ 90) →
      stars e = some (.ok recs)) := by
  have hbody : stars e =
      (if add_current_stars e.now recs then
        match star_count e with
        | .error err => some (.error err)
        | .ok count => some (.ok (recs ++ [⟨e.now, count⟩]))
      else some (.ok recs)) := by
    simp only [stars, h1]
    rw [if_neg h2, h3]
  constructor
  · intro hstale
    have hadd : add_current_stars e.now recs = true := by
      rcases hstale with hnil | ⟨last, hl, hgt⟩
      · subst hnil; rfl
      · unfold add_current_stars
        rw [hl]
        exact decide_eq_true hgt
    rw [hbody, if_pos hadd, h4]
  · rintro ⟨last, hl, hle⟩
    have hadd : add_current_stars e.now recs = false := by
      unfold add_current_stars
      rw [hl]
      exact decide_eq_false (by linarith)
    rw [hbody, if_neg (by simp [hadd])]

/-- First page of the C7 witness runs: 200, page count 2, non-empty
body. -/
def c7First : Response :=
  ⟨200, some ("h", RegexResult.captured (some "2")), none,
    some [⟨⟨0, true⟩⟩], none⟩

/-- Aggregate-count response of the C7 witness runs: 777 stargazers. -/
def c7Count : Response := ⟨200, none, none, none, some 777⟩

/-- C7 witness environment: sparse run sampling pages 0 and 1 whose
records end at day 9, with the clock set to `now`. -/
def c7Env (now : Day) : Env :=
  { firstResponse := .ok c7First
    fetchPage := fun p =>
      if p = 0 then .ok ⟨200, none, none, some [⟨⟨0, true⟩⟩], none⟩
      else .ok ⟨200, none, none, some [⟨⟨9, true⟩⟩], none⟩
    starCountResponse := .ok c7Count
    max_request_count := 2
    now := now }

/-- C7, witness: with the last record dated day 9, a clock of day 100
(difference 91) appends the current-total record dated "today", while
clocks of day 99 (difference 90) and day 98 (difference 89) do not. -/
theorem stars_freshness_witness :
    stars (c7Env 100) = some (.ok [⟨0, 0⟩, ⟨9, 30⟩, ⟨100, 777⟩]) ∧
    stars (c7Env 99) = some (.ok [⟨0, 0⟩, ⟨9, 30⟩]) ∧
    stars (c7Env 98) = some (.ok [⟨0, 0⟩, ⟨9, 30⟩]) := by
  refine ⟨?_, ?_, ?_⟩
  · exact (stars_freshness (c7Env 100) 2 [⟨⟨0, true⟩⟩]
      [⟨0, 0⟩, ⟨9, 30⟩] 777 rfl (by decide) rfl rfl).1
      (Or.inr ⟨⟨9, 30⟩, rfl, by decide⟩)
  · exact (stars_freshness (c7Env 99) 2 [⟨⟨0, true⟩⟩]
      [⟨0, 0⟩, ⟨9, 30⟩] 777 rfl (by decide) rfl rfl).2
      ⟨⟨9, 30⟩, rfl, by decide⟩
  · exact (stars_freshness (c7Env 98) 2 [⟨⟨0, true⟩⟩]
      [⟨0, 0⟩, ⟨9, 30⟩] 777 rfl (by decide) rfl rfl).2
      ⟨⟨9, 30⟩, rfl, by decide⟩

end StarsCrawler
